import Mathlib

/-
Verification development for the draw_scene program (a minimal OpenGL scene
viewer).  The definitions below are a shallow embedding of src/draw_scene.cc:
pure values are translated directly, and the side-effecting render loop is
modelled as a trace of device/window events.  Components that live in headers
not present in the repository snapshot (transformations.h, camera_controller.cc,
shader_program.h) are modelled from the specification and marked as such in
their doc comments.
-/

namespace DrawScene

/- ----------------------- Constants from the GLFW library ------------------ -/

/-- GLFW key code for the escape key. -/
def GLFW_KEY_ESCAPE : ℤ := 256

/-- GLFW key code for the W key. -/
def GLFW_KEY_W : ℕ := 87

/-- GLFW key code for the S key. -/
def GLFW_KEY_S : ℕ := 83

/-- GLFW key code for the A key. -/
def GLFW_KEY_A : ℕ := 65

/-- GLFW key code for the D key. -/
def GLFW_KEY_D : ℕ := 68

/-- GLFW action code for a key press event. -/
def GLFW_PRESS : ℤ := 1

/-- GLFW action code for a key release event. -/
def GLFW_RELEASE : ℤ := 0

/- ----------------------- Matrices and projection -------------------------- -/

/-- A 4x4 float matrix (Eigen::Matrix4f), embedded as a flat row-major list of
16 rationals. -/
abbrev Matrix4 := List ℚ

/-- Entry (i, j) of a flat row-major 4x4 matrix. -/
def matrixEntry (m : Matrix4) (i j : Fin 4) : ℚ := m.getD (4 * i.val + j.val) 0

/-- The matrix produced by Eigen::Matrix4f::Identity(). -/
def identityMatrix4 : Matrix4 :=
  [1, 0, 0, 0,
   0, 1, 0, 0,
   0, 0, 1, 0,
   0, 0, 0, 1]

/-- The local variable view in main: const Eigen::Matrix4f view =
Eigen::Matrix4f::Identity(); (src/draw_scene.cc:475). -/
def mainView : Matrix4 := identityMatrix4

/-- Window width constant kWindowWidth (src/draw_scene.cc:65), a C++ int. -/
def kWindowWidth : ℤ := 640

/-- Window height constant kWindowHeight (src/draw_scene.cc:66), a C++ int. -/
def kWindowHeight : ℤ := 480

/-- Modelled from the spec: transformations.h is not in the repository
snapshot; spec section 4.1 states radians = degrees * pi / 180.  The constant
pi is abstracted as a rational parameter so the definition stays computable;
every theorem about it quantifies over that parameter. -/
def ConvertDegreesToRadians (pi degrees : ℚ) : ℚ := degrees * pi / 180

/-- The field_of_view local in main: wvu::ConvertDegreesToRadians(45.0f)
(src/draw_scene.cc:468). -/
def mainFieldOfView (pi : ℚ) : ℚ := ConvertDegreesToRadians pi 45

/-- The aspect_ratio local in main:
static_cast<float>(kWindowWidth / kWindowHeight) (src/draw_scene.cc:469).
Both operands are C++ ints, so the division is integer division and only the
quotient is cast to float. -/
def mainAspectRatio : ℚ := ((kWindowWidth / kWindowHeight : ℤ) : ℚ)

/-- The near_plane local in main: 0.1f (src/draw_scene.cc:470). -/
def mainNearPlane : ℚ := 1 / 10

/-- The far_plane local in main: 20.0f (src/draw_scene.cc:471). -/
def mainFarPlane : ℚ := 20

/-- Modelled from the spec: transformations.h is not in the repository
snapshot; spec sections 4.1 and 8 state the standard OpenGL perspective
matrix.  The irrational value tan(fov / 2) is abstracted as the rational
parameter t so the definition stays computable; the entries the spec names,
[2][2] and [3][2], do not depend on it. -/
def ComputePerspectiveProjectionMatrix (t aspect near far : ℚ) : Matrix4 :=
  [1 / (aspect * t), 0, 0, 0,
   0, 1 / t, 0, 0,
   0, 0, -(far + near) / (far - near), -(2 * far * near) / (far - near),
   0, 0, -1, 0]

/-- The projection local in main (src/draw_scene.cc:472-474): the perspective
matrix built once, before the render loop, from mainFieldOfView,
mainAspectRatio, mainNearPlane and mainFarPlane. -/
def mainProjection (t : ℚ) : Matrix4 :=
  ComputePerspectiveProjectionMatrix t mainAspectRatio mainNearPlane mainFarPlane

/- ----------------------- The render loop as an event trace ---------------- -/

/-- One observable device/window action issued by the render loop.  A draw
event records the model index, the projection and view matrices handed to
Model::Draw, and the texture id bound for that model. -/
inductive RenderEv where
  | updateCameraPose : RenderEv
  | clearBuffers : RenderEv
  | useShaderProgram : RenderEv
  | setWireframePolygonMode : RenderEv
  | draw : ℕ → Matrix4 → Matrix4 → ℕ → RenderEv
  | unbindVertexArray : RenderEv
  | swapBuffers : RenderEv
  | pollEvents : RenderEv
  deriving DecidableEq

/-- Trace of RenderScene (src/draw_scene.cc:289-308): clear the buffers, use
the shader program, set wireframe polygon mode, draw model i with
texture_ids[i] for every i below the model count, then unbind the vertex
array. -/
def RenderScene (projection view : Matrix4) (numModels : ℕ)
    (textureIds : ℕ → ℕ) : List RenderEv :=
  RenderEv.clearBuffers :: RenderEv.useShaderProgram ::
    RenderEv.setWireframePolygonMode ::
    (((List.range numModels).map fun i =>
        RenderEv.draw i projection view (textureIds i)) ++
      [RenderEv.unbindVertexArray])

/-- Trace of one iteration of the while loop in main
(src/draw_scene.cc:479-488): RenderScene, then glfwSwapBuffers, then
glfwPollEvents. -/
def loopIterationTrace (projection view : Matrix4) (numModels : ℕ)
    (textureIds : ℕ → ℕ) : List RenderEv :=
  RenderScene projection view numModels textureIds ++
    [RenderEv.swapBuffers, RenderEv.pollEvents]

/-- Trace of the render loop unrolled for a given number of iterations: the
loop body is repeated until the window is asked to close. -/
def renderLoop (projection view : Matrix4) (numModels : ℕ)
    (textureIds : ℕ → ℕ) : ℕ → List RenderEv
  | 0 => []
  | frames + 1 =>
      loopIterationTrace projection view numModels textureIds ++
        renderLoop projection view numModels textureIds frames

/-- The full trace of the render loop as main runs it: projection is the
perspective matrix computed once before the loop, and view is the identity
local (src/draw_scene.cc:475-488). -/
def mainRenderTrace (t : ℚ) (frames numModels : ℕ)
    (textureIds : ℕ → ℕ) : List RenderEv :=
  renderLoop (mainProjection t) mainView numModels textureIds frames

/- ----------------------- main: initialization and exit codes -------------- -/

/-- Outcomes of the external initialization steps main performs: GLFW init,
window creation, GLEW init, and the device program id the shader program ends
up with (0 when compile/link failed, per spec section 4.2: Create assigns a
non-zero program identifier on success). -/
structure InitOutcomes where
  glfwInitOk : Bool
  windowCreated : Bool
  glewInitOk : Bool
  shaderProgramId : ℕ
  deriving DecidableEq

/-- CreateShaderProgram (src/draw_scene.cc:273-286) with a non-null argument:
it loads both shader sources, calls Create, and returns false exactly when the
resulting shader_program_id() is zero. -/
def CreateShaderProgramSucceeds (shaderProgramId : ℕ) : Bool :=
  shaderProgramId != 0

/-- The observable result of main (src/draw_scene.cc:411-498): the exit status
together with the render-loop trace that was executed.  Each failing
initialization step returns -1 before the render loop; when every step
succeeds the loop runs until the window is asked to close and main returns
0. -/
def mainRun (env : InitOutcomes) (t : ℚ) (frames numModels : ℕ)
    (textureIds : ℕ → ℕ) : ℤ × List RenderEv :=
  if !env.glfwInitOk then (-1, [])
  else if !env.windowCreated then (-1, [])
  else if !env.glewInitOk then (-1, [])
  else if !(CreateShaderProgramSucceeds env.shaderProgramId) then (-1, [])
  else (0, mainRenderTrace t frames numModels textureIds)

/- ----------------------- Key callback ------------------------------------- -/

/-- The window-system state a key event can touch: the should-close flag and
the held-key vector pointed to by movement_vector_ptr. -/
structure KeyState where
  shouldClose : Bool
  held : List Bool
  deriving DecidableEq

/-- First statement of KeyCallback (src/draw_scene.cc:104-106): an escape
press asks the window to close. -/
def KeyCallbackEscape (key action : ℤ) (st : KeyState) : KeyState :=
  if key = GLFW_KEY_ESCAPE ∧ action = GLFW_PRESS then
    { st with shouldClose := true }
  else st

/-- KeyCallback (src/draw_scene.cc:99-115), the version wired to the camera
subsystem: on an escape press it asks the window to close; for keys in
[0, 1024) it records a press as true and a release as false in the held-key
vector; all other keys leave the vector untouched. -/
def KeyCallback (key scancode action mods : ℤ) (st : KeyState) : KeyState :=
  let st1 := KeyCallbackEscape key action st
  if 0 ≤ key ∧ key < 1024 then
    if action = GLFW_PRESS then { st1 with held := st1.held.set key.toNat true }
    else if action = GLFW_RELEASE then
      { st1 with held := st1.held.set key.toNat false }
    else st1
  else st1

/- ----------------------- Mouse callback ----------------------------------- -/

/-- The static locals of MouseCallback (src/draw_scene.cc:122-124).  The
last-position statics are declared as C++ ints, so storing a double position
truncates it. -/
structure MouseState where
  lastX : ℤ
  lastY : ℤ
  firstCall : Bool
  deriving DecidableEq

/-- C++ conversion from a floating-point value to int: truncation toward
zero. -/
def truncToInt (q : ℚ) : ℤ := if 0 ≤ q then ⌊q⌋ else ⌈q⌉

/-- MouseCallback (src/draw_scene.cc:119-140): on the first call it seeds the
last position from the current one; it then feeds
sensitivity * (x - last_x) to AddYawOffset and
sensitivity * (last_y - y) to AddPitchOffset, and finally stores the current
position as the last position unconditionally.  The result is the new static
state together with the yaw and pitch offsets handed to the camera
controller; sens stands for rotation_sensitivity(). -/
def MouseCallback (sens x y : ℚ) (st : MouseState) : MouseState × ℚ × ℚ :=
  let st0 :=
    if st.firstCall then
      { lastX := truncToInt x, lastY := truncToInt y, firstCall := false }
    else st
  let yawOffset := sens * (x - (st0.lastX : ℚ))
  let pitchOffset := sens * ((st0.lastY : ℚ) - y)
  (⟨truncToInt x, truncToInt y, false⟩, yawOffset, pitchOffset)

/- ----------------------- Camera pose update ------------------------------- -/

/-- A movement operation on the camera controller. -/
inductive CameraOp where
  | moveFront : CameraOp
  | moveBack : CameraOp
  | moveLeft : CameraOp
  | moveRight : CameraOp
  deriving DecidableEq

/-- UpdateCameraPose (src/draw_scene.cc:81-95): reads the held-key vector at
the W, S, A and D key codes, in that order, and issues the corresponding
camera-controller movement call for each key that is held.  The result is the
list of movement calls issued, in program order. -/
def UpdateCameraPose (held : List Bool) : List CameraOp :=
  (if held.getD GLFW_KEY_W false then [CameraOp.moveFront] else []) ++
  (if held.getD GLFW_KEY_S false then [CameraOp.moveBack] else []) ++
  (if held.getD GLFW_KEY_A false then [CameraOp.moveLeft] else []) ++
  (if held.getD GLFW_KEY_D false then [CameraOp.moveRight] else [])

/- ----------------------- Error callback ----------------------------------- -/

/-- Severity levels of the glog logging library. -/
inductive LogSeverity where
  | info : LogSeverity
  | warning : LogSeverity
  | severe : LogSeverity
  | fatal : LogSeverity
  deriving DecidableEq

/-- One emitted log record: a severity and the logged message. -/
structure LogRecord where
  severity : LogSeverity
  message : String
  deriving DecidableEq

/-- ErrorCallback (src/draw_scene.cc:77-79), the version wired to the camera
subsystem: LOG(FATAL) << description, a fatal log record carrying the
window-system error description. -/
def ErrorCallback (errorCode : ℤ) (description : String) : LogRecord :=
  { severity := LogSeverity.fatal, message := description }

/-- Modelled from the spec: glog semantics are external to the repository;
spec section 4.5 states a fatal error from this layer terminates the process,
which matches glog aborting on a FATAL-severity record. -/
def logRecordTerminatesProcess (r : LogRecord) : Bool :=
  r.severity == LogSeverity.fatal

/- ----------------------- Command-line flags ------------------------------- -/

/-- The string flags the program defines with DEFINE_string
(src/draw_scene.cc:55-58), as pairs of flag name and default value. -/
def definedStringFlags : List (String × String) :=
  [("texture1_filepath", "texture1.bmp"),
   ("texture2_filepath", "texture2.bmp")]

/-- The flag names main actually reads when loading the two textures
(src/draw_scene.cc:464-465): FLAGS_brick_filepath and FLAGS_stone_filepath. -/
def textureFlagNamesReadInMain : List String :=
  ["brick_filepath", "stone_filepath"]

/- ----------------------- The cube mesh in ConstructModels ----------------- -/

/-- One Eigen block assignment
vertices2.block(rowStart, col, vals.length, 1) = vals, tagged with the vertex
number named by the source comment right above it (Cube Vertex label). -/
structure BlockWrite where
  label : ℕ
  rowStart : ℕ
  col : ℕ
  vals : List ℚ
  deriving DecidableEq

/-- Applies one block assignment to an 8x8 matrix whose unassigned entries are
none. -/
def setBlock (m : Fin 8 → Fin 8 → Option ℚ) (rowStart col : ℕ)
    (vals : List ℚ) : Fin 8 → Fin 8 → Option ℚ :=
  fun i j =>
    if j.val = col ∧ rowStart ≤ i.val ∧ i.val < rowStart + vals.length then
      some (vals.getD (i.val - rowStart) 0)
    else m i j

/-- The block assignments ConstructModels performs on the cube vertex matrix
vertices2, in program order (src/draw_scene.cc:364-394).  The writes labelled
Cube Vertex 4 through Cube Vertex 7 name columns 0 through 3, exactly as in
the source. -/
def cubeVertexWrites : List BlockWrite :=
  [⟨0, 0, 0, [0, 0, 0]⟩, ⟨0, 3, 0, [1, 0, 0]⟩, ⟨0, 6, 0, [0, 0]⟩,
   ⟨1, 0, 1, [2, 0, 0]⟩, ⟨1, 3, 1, [0, 1, 0]⟩, ⟨1, 6, 1, [0, 1]⟩,
   ⟨2, 0, 2, [2, 0, 2]⟩, ⟨2, 3, 2, [0, 0, 1]⟩, ⟨2, 6, 2, [1, 0]⟩,
   ⟨3, 0, 3, [0, 0, 2]⟩, ⟨3, 3, 3, [1, 0, 0]⟩, ⟨3, 6, 3, [1, 1]⟩,
   ⟨4, 0, 0, [0, 2, 0]⟩, ⟨4, 3, 0, [1, 0, 0]⟩, ⟨4, 6, 0, [0, 0]⟩,
   ⟨5, 0, 1, [2, 2, 0]⟩, ⟨5, 3, 1, [0, 1, 0]⟩, ⟨5, 6, 1, [0, 1]⟩,
   ⟨6, 0, 2, [2, 2, 2]⟩, ⟨6, 3, 2, [0, 0, 1]⟩, ⟨6, 6, 2, [1, 0]⟩,
   ⟨7, 0, 3, [0, 2, 2]⟩, ⟨7, 3, 3, [1, 0, 0]⟩, ⟨7, 6, 3, [1, 1]⟩]

/-- The cube vertex matrix (Eigen::MatrixXf vertices2(8, 8),
src/draw_scene.cc:362) after all block assignments: entries never assigned
stay none. -/
def cubeVertexMatrix : Fin 8 → Fin 8 → Option ℚ :=
  cubeVertexWrites.foldl (fun m w => setBlock m w.rowStart w.col w.vals)
    (fun _ _ => none)

/-- The cube index list indices2 (src/draw_scene.cc:349-361). -/
def cubeIndices : List ℕ :=
  [0, 3, 2,
   0, 2, 1,
   0, 4, 1,
   1, 5, 2,
   2, 6, 3,
   3, 7, 0,
   4, 5, 1,
   5, 6, 2,
   6, 7, 3,
   7, 4, 0,
   4, 7, 5,
   5, 7, 6]

/- ----------------------- Concrete example inputs -------------------------- -/

/-- A concrete texture-id assignment used by witnesses: model i gets texture
id 10 + i. -/
def exTextureIds : ℕ → ℕ := fun i => 10 + i

/-- A concrete key-callback state: window open, all 1024 keys released. -/
def exKeyState : KeyState := ⟨false, List.replicate 1024 false⟩

/-- A concrete held-key vector of length 1024 in which exactly the W (87) and
A (65) entries are true. -/
def exHeldWA : List Bool :=
  ((List.replicate 1024 false).set GLFW_KEY_W true).set GLFW_KEY_A true

/- ======================= Theorems ========================================= -/

/-- Helper: every event of the unrolled render loop belongs to the trace of a
single loop iteration. -/
theorem mem_renderLoop {p v : Matrix4} {n : ℕ} {tids : ℕ → ℕ} {f : ℕ}
    {e : RenderEv} (h : e ∈ renderLoop p v n tids f) :
    e ∈ loopIterationTrace p v n tids := by
  induction f with
  | zero => simp [renderLoop] at h
  | succ k ih =>
      simp only [renderLoop, List.mem_append] at h
      rcases h with h | h
      · exact h
      · exact ih h

/-- Helper: a draw event of one loop iteration carries exactly the projection
and view matrices handed to RenderScene, a model index below the model count,
and that model's own texture id. -/
theorem draw_mem_loopIterationTrace {p v : Matrix4} {n : ℕ} {tids : ℕ → ℕ}
    {m tex : ℕ} {pp vv : Matrix4}
    (h : RenderEv.draw m pp vv tex ∈ loopIterationTrace p v n tids) :
    pp = p ∧ vv = v ∧ m < n ∧ tex = tids m := by
  simp [loopIterationTrace, RenderScene] at h
  obtain ⟨a, ha, rfl, rfl, rfl, rfl⟩ := h
  exact ⟨rfl, rfl, ha, rfl⟩

/-- Helper: one loop iteration never issues a camera pose update. -/
theorem updateCameraPose_not_mem_loopIterationTrace (p v : Matrix4) (n : ℕ)
    (tids : ℕ → ℕ) :
    RenderEv.updateCameraPose ∉ loopIterationTrace p v n tids := by
  simp [loopIterationTrace, RenderScene]

/-- Claim C1 (amended): every iteration of the render loop clears the
buffers, activates the shader program, sets wireframe polygon fill mode,
draws every model with its own texture unit, unbinds the vertex array,
presents the frame and polls input events, in that order; the held-key camera
pose update is never performed by the loop. -/
theorem render_loop_order (p v : Matrix4) (n : ℕ) (tids : ℕ → ℕ)
    (frames : ℕ) :
    renderLoop p v n tids (frames + 1) =
      (RenderEv.clearBuffers :: RenderEv.useShaderProgram ::
        RenderEv.setWireframePolygonMode ::
        (((List.range n).map fun i => RenderEv.draw i p v (tids i)) ++
          [RenderEv.unbindVertexArray, RenderEv.swapBuffers,
            RenderEv.pollEvents])) ++ renderLoop p v n tids frames ∧
    RenderEv.updateCameraPose ∉ renderLoop p v n tids frames := by
  constructor
  · simp [renderLoop, loopIterationTrace, RenderScene]
  · induction frames with
    | zero => simp [renderLoop]
    | succ k ih =>
        intro h
        simp only [renderLoop, List.mem_append] at h
        rcases h with h | h
        · exact updateCameraPose_not_mem_loopIterationTrace p v n tids h
        · exact ih h

/-- Claim C1 counterexample: with one frame rendered and two models, the
render loop trace of main is nonempty yet contains no camera pose update, so
the loop does not update the camera pose from the held-key state on every
iteration. -/
theorem render_loop_missing_camera_update_cex :
    (mainRenderTrace 1 1 2 exTextureIds).length = 8 ∧
      (mainRenderTrace 1 1 2 exTextureIds).contains
        RenderEv.updateCameraPose = false := by decide

/-- Claim C1 witness: the render loop of main, unrolled for three frames with
two models, never updates the camera pose. -/
theorem render_loop_order_witness :
    RenderEv.updateCameraPose ∉
      renderLoop (mainProjection 1) mainView 2 exTextureIds 3 :=
  (render_loop_order (mainProjection 1) mainView 2 exTextureIds 3).2

/-- Claim C2: every draw event issued by the render loop of main receives
exactly the identity view matrix that main stores in its view local; the
camera pose never reaches a draw call. -/
theorem draw_view_is_identity (t : ℚ) (frames n m tex : ℕ) (tids : ℕ → ℕ)
    (pp vv : Matrix4)
    (hmem : RenderEv.draw m pp vv tex ∈ mainRenderTrace t frames n tids) :
    vv = mainView ∧ mainView = identityMatrix4 ∧
      ∀ i j : Fin 4, matrixEntry vv i j = if i = j then 1 else 0 := by
  simp only [mainRenderTrace] at hmem
  obtain ⟨h1, h2, h3, h4⟩ := draw_mem_loopIterationTrace (mem_renderLoop hmem)
  refine ⟨h2, rfl, ?_⟩
  rw [h2]
  decide

/-- Claim C2 witness: the view matrix received by the draw event of a
one-frame, one-model run of the loop is the identity. -/
theorem draw_view_is_identity_witness :
    matrixEntry mainView 0 0 = 1 ∧ matrixEntry mainView 0 1 = 0 := by
  have h := draw_view_is_identity 1 1 1 0 (exTextureIds 0) exTextureIds
    (mainProjection 1) mainView
    (by simp [mainRenderTrace, renderLoop, loopIterationTrace, RenderScene])
  exact ⟨by simpa using h.2.2 0 0, by simpa using h.2.2 0 1⟩

/-- Claim C3 (amended): main builds the projection matrix once, before the
loop, from a field of view of pi/4 radians (45 degrees), an aspect ratio of 1
(the integer division 640 / 480 truncates before the cast to float), a near
plane of 0.1 and a far plane of 20; every draw event of every frame receives
that same matrix, whose [2][2] and [3][2] entries follow the standard OpenGL
perspective formula. -/
theorem projection_args (pi t : ℚ) (frames n m tex : ℕ) (tids : ℕ → ℕ)
    (pp vv : Matrix4)
    (hmem : RenderEv.draw m pp vv tex ∈ mainRenderTrace t frames n tids) :
    pp = mainProjection t ∧ mainFieldOfView pi = pi / 4 ∧
      mainAspectRatio = 1 ∧ mainNearPlane = 1 / 10 ∧ mainFarPlane = 20 ∧
      matrixEntry (mainProjection t) 2 2 = -(201 / 199) ∧
      matrixEntry (mainProjection t) 3 2 = -1 ∧
      matrixEntry (mainProjection t) 2 3 = -(40 / 199) := by
  simp only [mainRenderTrace] at hmem
  obtain ⟨h1, h2, h3, h4⟩ := draw_mem_loopIterationTrace (mem_renderLoop hmem)
  have e22 : matrixEntry (mainProjection t) 2 2 =
      -(mainFarPlane + mainNearPlane) / (mainFarPlane - mainNearPlane) := rfl
  have e23 : matrixEntry (mainProjection t) 2 3 =
      -(2 * mainFarPlane * mainNearPlane) / (mainFarPlane - mainNearPlane) := rfl
  have e32 : matrixEntry (mainProjection t) 3 2 = -1 := rfl
  refine ⟨h1, ?_, ?_, rfl, rfl, ?_, e32, ?_⟩
  · unfold mainFieldOfView ConvertDegreesToRadians
    ring
  · rw [mainAspectRatio, show (kWindowWidth / kWindowHeight : ℤ) = 1 from by decide]
    norm_num
  · rw [e22, mainNearPlane, mainFarPlane]
    norm_num
  · rw [e23, mainNearPlane, mainFarPlane]
    norm_num

/-- Claim C3 counterexample: the aspect ratio main passes to the projection
computation is exactly 1, not approximately 4/3, because 640 / 480 is an
integer division. -/
theorem aspect_ratio_cex :
    mainAspectRatio = 1 ∧ (640 : ℚ) / 480 - mainAspectRatio = 1 / 3 := by
  have h : mainAspectRatio = 1 := by
    rw [mainAspectRatio, show (kWindowWidth / kWindowHeight : ℤ) = 1 from by decide]
    norm_num
  refine ⟨h, ?_⟩
  rw [h]
  norm_num

/-- Claim C3 witness: in a one-frame, one-model run the draw event receives
the once-computed projection matrix, and its [2][2] entry has the expected
value. -/
theorem projection_args_witness :
    matrixEntry (mainProjection 1) 2 2 = -(201 / 199) ∧ mainAspectRatio = 1 := by
  have h := projection_args 1 1 1 1 0 (exTextureIds 0) exTextureIds
    (mainProjection 1) mainView
    (by simp [mainRenderTrace, renderLoop, loopIterationTrace, RenderScene])
  exact ⟨h.2.2.2.2.2.1, h.2.2.1⟩

/-- Claim C4 (code bug): the program defines exactly the string flags
texture1_filepath and texture2_filepath, but the flags main reads to load the
two textures are brick_filepath and stone_filepath, neither of which is
defined anywhere in the program. -/
theorem texture_flags_mismatch :
    definedStringFlags.map Prod.fst =
      ["texture1_filepath", "texture2_filepath"] ∧
    textureFlagNamesReadInMain = ["brick_filepath", "stone_filepath"] ∧
    (textureFlagNamesReadInMain.all
      (fun f => !((definedStringFlags.map Prod.fst).contains f))) = true := by
  decide

/-- Claim C5: main exits with 0 exactly when GLFW init, window creation, GLEW
init and shader program creation all succeed; any initialization failure makes
it exit with the nonzero status -1 without executing a single render-loop
event. -/
theorem mainRun_exit_codes (env : InitOutcomes) (t : ℚ)
    (frames numModels : ℕ) (textureIds : ℕ → ℕ) :
    ((mainRun env t frames numModels textureIds).1 = 0 ↔
      (env.glfwInitOk = true ∧ env.windowCreated = true ∧
        env.glewInitOk = true ∧ env.shaderProgramId ≠ 0)) ∧
    ((mainRun env t frames numModels textureIds).1 ≠ 0 →
      (mainRun env t frames numModels textureIds).1 = -1 ∧
        (mainRun env t frames numModels textureIds).2 = []) := by
  obtain ⟨g, w, gl, sid⟩ := env
  by_cases hsid : sid = 0 <;> cases g <;> cases w <;> cases gl <;>
    simp [mainRun, CreateShaderProgramSucceeds, hsid]

/-- Claim C5 witness: a GLFW init failure exits with -1 and an empty trace;
an all-successful run exits with 0. -/
theorem mainRun_exit_codes_witness :
    (mainRun ⟨false, true, true, 1⟩ 1 1 2 exTextureIds).1 = -1 ∧
    (mainRun ⟨false, true, true, 1⟩ 1 1 2 exTextureIds).2 = [] ∧
    (mainRun ⟨true, true, true, 1⟩ 1 1 2 exTextureIds).1 = 0 := by
  have h1 := mainRun_exit_codes ⟨false, true, true, 1⟩ 1 1 2 exTextureIds
  have h2 := mainRun_exit_codes ⟨true, true, true, 1⟩ 1 1 2 exTextureIds
  exact ⟨(h1.2 (by decide)).1, (h1.2 (by decide)).2,
    h2.1.mpr ⟨rfl, rfl, rfl, by decide⟩⟩

/-- Helper: the escape check of KeyCallback only touches the should-close
flag, never the held-key vector. -/
theorem KeyCallbackEscape_held (key action : ℤ) (st : KeyState) :
    (KeyCallbackEscape key action st).held = st.held := by
  unfold KeyCallbackEscape
  split <;> rfl

/-- Claim C6: a key event with key in [0, 1024) sets the held-key entry at
that key to true on a press and to false on a release; a key outside
[0, 1024) leaves the held-key vector unchanged, and no event ever changes the
length of the vector, so no write lands out of its bounds. -/
theorem KeyCallback_held_bounds (key scancode action mods : ℤ)
    (st : KeyState) :
    ((0 ≤ key ∧ key < 1024) → action = GLFW_PRESS →
      (KeyCallback key scancode action mods st).held =
        st.held.set key.toNat true) ∧
    ((0 ≤ key ∧ key < 1024) → action = GLFW_RELEASE →
      (KeyCallback key scancode action mods st).held =
        st.held.set key.toNat false) ∧
    (¬(0 ≤ key ∧ key < 1024) →
      (KeyCallback key scancode action mods st).held = st.held) ∧
    (KeyCallback key scancode action mods st).held.length =
      st.held.length := by
  have hesc := KeyCallbackEscape_held key action st
  refine ⟨?_, ?_, ?_, ?_⟩
  · intro hrange hp
    simp [KeyCallback, if_pos hrange, if_pos hp, hesc]
  · intro hrange hr
    have hnp : ¬action = GLFW_PRESS := by
      rw [hr]
      decide
    simp [KeyCallback, if_pos hrange, if_neg hnp, if_pos hr, hesc]
  · intro hrange
    simp [KeyCallback, if_neg hrange, hesc]
  · simp only [KeyCallback]
    split
    · split
      · simp [hesc]
      · split
        · simp [hesc]
        · simp [hesc]
    · simp [hesc]

/-- Claim C6 witness: pressing key 1024 leaves the 1024-entry held-key vector
unchanged, while pressing key 87 sets entry 87. -/
theorem KeyCallback_held_bounds_witness :
    (KeyCallback 1024 0 GLFW_PRESS 0 exKeyState).held = exKeyState.held ∧
    (KeyCallback 87 0 GLFW_PRESS 0 exKeyState).held =
      exKeyState.held.set 87 true := by
  have h1 := KeyCallback_held_bounds 1024 0 GLFW_PRESS 0 exKeyState
  have h2 := KeyCallback_held_bounds 87 0 GLFW_PRESS 0 exKeyState
  exact ⟨h1.2.2.1 (by decide), h2.1 (by decide) rfl⟩

/-- Helper: C++ truncation toward zero moves a rational by strictly less than
one. -/
theorem abs_sub_truncToInt_lt_one (q : ℚ) : |q - (truncToInt q : ℚ)| < 1 := by
  unfold truncToInt
  split_ifs with h
  · have h1 := Int.floor_le q
    have h2 := Int.lt_floor_add_one q
    rw [abs_lt]
    constructor <;> linarith
  · have h1 := Int.le_ceil q
    have h2 := Int.ceil_lt_add_one q
    rw [abs_lt]
    constructor <;> linarith

/-- Claim C7: the cursor callback always stores the (truncated) current
position as the new last position and clears the first-call flag; on the
first call it first seeds the last position from the current one, so the yaw
and pitch offsets it forwards are the sensitivity times a sub-pixel delta
(smaller than one in magnitude), and on every later call the offsets are
sensitivity * (current x - last x) and sensitivity * (last y - current y). -/
theorem MouseCallback_behavior (sens x y : ℚ) (st : MouseState) :
    (MouseCallback sens x y st).1 =
      ⟨truncToInt x, truncToInt y, false⟩ ∧
    (st.firstCall = true →
      (MouseCallback sens x y st).2.1 = sens * (x - (truncToInt x : ℚ)) ∧
      (MouseCallback sens x y st).2.2 = sens * ((truncToInt y : ℚ) - y) ∧
      |x - (truncToInt x : ℚ)| < 1 ∧ |(truncToInt y : ℚ) - y| < 1) ∧
    (st.firstCall = false →
      (MouseCallback sens x y st).2.1 = sens * (x - (st.lastX : ℚ)) ∧
      (MouseCallback sens x y st).2.2 = sens * ((st.lastY : ℚ) - y)) := by
  refine ⟨rfl, ?_, ?_⟩
  · intro hfc
    refine ⟨by simp [MouseCallback, hfc], by simp [MouseCallback, hfc],
      abs_sub_truncToInt_lt_one x, ?_⟩
    rw [abs_sub_comm]
    exact abs_sub_truncToInt_lt_one y
  · intro hfc
    exact ⟨by simp [MouseCallback, hfc], by simp [MouseCallback, hfc]⟩

/-- Claim C7 witness: a first call at position (3/2, -5/2) with sensitivity
1/10 stores the truncated position (1, -2), clears the first-call flag, and
forwards the sub-pixel offsets. -/
theorem MouseCallback_behavior_witness :
    (MouseCallback (1 / 10) (3 / 2) (-5 / 2) ⟨0, 0, true⟩).1 =
      ⟨truncToInt (3 / 2), truncToInt (-5 / 2), false⟩ ∧
    (MouseCallback (1 / 10) (3 / 2) (-5 / 2) ⟨0, 0, true⟩).2.1 =
      (1 / 10) * ((3 / 2 : ℚ) - (truncToInt (3 / 2) : ℚ)) := by
  have h := MouseCallback_behavior (1 / 10) (3 / 2) (-5 / 2) ⟨0, 0, true⟩
  exact ⟨h.1, (h.2.1 rfl).1⟩

/-- Claim C8: whenever the held-key vector has the W and A entries true and
the S and D entries false, one UpdateCameraPose call issues exactly MoveFront
followed by MoveLeft: each exactly once, and no backward or rightward move. -/
theorem UpdateCameraPose_WA (held : List Bool)
    (hW : held.getD GLFW_KEY_W false = true)
    (hA : held.getD GLFW_KEY_A false = true)
    (hS : held.getD GLFW_KEY_S false = false)
    (hD : held.getD GLFW_KEY_D false = false) :
    UpdateCameraPose held = [CameraOp.moveFront, CameraOp.moveLeft] ∧
    (UpdateCameraPose held).count CameraOp.moveFront = 1 ∧
    (UpdateCameraPose held).count CameraOp.moveLeft = 1 ∧
    (UpdateCameraPose held).count CameraOp.moveBack = 0 ∧
    (UpdateCameraPose held).count CameraOp.moveRight = 0 := by
  have h : UpdateCameraPose held = [CameraOp.moveFront, CameraOp.moveLeft] := by
    unfold UpdateCameraPose
    simp only [hW, hA, hS, hD]
    rfl
  rw [h]
  exact ⟨rfl, by decide, by decide, by decide, by decide⟩

/-- Claim C8 witness: on the concrete 1024-entry held-key vector with exactly
W and A held, UpdateCameraPose issues exactly MoveFront then MoveLeft. -/
theorem UpdateCameraPose_WA_witness :
    UpdateCameraPose exHeldWA = [CameraOp.moveFront, CameraOp.moveLeft] :=
  (UpdateCameraPose_WA exHeldWA (by decide) (by decide) (by decide)
    (by decide)).1

/-- Claim C9: the error callback turns every window-system error into a
fatal-severity log record carrying the error description, and a fatal record
terminates the process. -/
theorem ErrorCallback_fatal (e : ℤ) (d : String) :
    (ErrorCallback e d).message = d ∧
    (ErrorCallback e d).severity = LogSeverity.fatal ∧
    logRecordTerminatesProcess (ErrorCallback e d) = true :=
  ⟨rfl, rfl, rfl⟩

/-- Claim C10: the cube vertex matrix has 8 columns and its index list
references index 7, yet after all of the block assignments of ConstructModels
the columns 4 through 7 hold no assigned entry at all: the writes labelled
Cube Vertex 4 through Cube Vertex 7 name columns 0 through 3 and overwrite
the first four vertices (column 0, row 1 ends at 2, the y coordinate written
by the Cube Vertex 4 assignment, not the 0 written by Cube Vertex 0). -/
theorem cube_columns_never_assigned :
    (∀ i : Fin 8, ∀ j : Fin 8, 4 ≤ j.val → cubeVertexMatrix i j = none) ∧
    (∀ w ∈ cubeVertexWrites, w.col < 4) ∧
    (∀ w ∈ cubeVertexWrites, 4 ≤ w.label → w.col = w.label - 4) ∧
    (7 ∈ cubeIndices) ∧ (∀ k ∈ cubeIndices, k < 8) ∧
    cubeVertexMatrix 1 0 = some 2 ∧
    cubeVertexMatrix 0 1 = some 2 := by
  decide

/-- Claim C10 witness: entry (0, 4) of the cube vertex matrix was never
assigned, and index 7 is in range for the 8 declared columns. -/
theorem cube_columns_never_assigned_witness :
    cubeVertexMatrix 0 4 = none ∧ (7 : ℕ) < 8 :=
  ⟨cube_columns_never_assigned.1 0 4 (by decide),
    cube_columns_never_assigned.2.2.2.2.1 7 (by decide)⟩

end DrawScene
